import Mathlib

/-!
SecureChat: formal model of the client logic and routing core.

Shallow embedding of the SecureChat repository.

* `app.js` (the browser client) is embedded directly: `escapeHtml`,
  `appendMessage`, `sendMessage`, `handleWsMessage`, `handleLogout`,
  the WebSocket `onclose`/`onopen` handlers, `connectWebSocket`'s guard,
  and `apiCall`.
* The FastAPI server (`server.py`, message router / subscription table)
  is not part of the sources; its behaviour is modelled from the spec
  (§4.2, §4.4, §6, §7) in the `Router` namespace below, using the
  `MAX_MESSAGE_LENGTH = 10000` constant documented in the repository's
  setup guide (`Settings` class).

JavaScript null/undefined is modelled with `Option`; JS string
truthiness (`if (s)`) is `s ≠ ""` on present strings.
-/

namespace SecureChat

/-! ## Basic client data model (app.js state) -/

/-- Chat kind, the string `'private'` or `'group'` in
`state.activeChat.type`. -/
inductive ChatType where
  | privateChat
  | groupChat
deriving DecidableEq, Repr

/-- Value of `state.activeChat` (set by `openChat`, app.js:245). -/
structure ActiveChat where
  id : Nat
  type : ChatType
deriving DecidableEq, Repr

/-- Value of `state.user`: the fields the client logic reads. -/
structure User where
  id : Nat
  nick_name : String
deriving DecidableEq, Repr

/-- WebSocket ready states; `sendMessage` and `openChat` test
`readyState === WebSocket.OPEN`. -/
inductive ReadyState where
  | CONNECTING
  | OPEN
  | CLOSING
  | CLOSED
deriving DecidableEq, Repr

/-- A client-side view of `state.socket`: its ready state and whether an
`onclose` handler is currently attached (`handleLogout` and
`connectWebSocket` set `socket.onclose = null` before closing). -/
structure Socket where
  readyState : ReadyState
  oncloseAttached : Bool
deriving DecidableEq, Repr

/-- A chat message as the client renders it: the shape of the optimistic
`tempMsg` built in `sendMessage` (app.js:303) and of `data.message`
delivered in a broadcast. There is no local-reference id field. -/
structure WsMsg where
  content : String
  timestamp : String
  sender_id : Nat
  sender_name : String
deriving DecidableEq, Repr

/-- JSON frame sent on the socket by `sendMessage` (app.js:311). -/
structure OutFrame where
  type : String
  chat_id : Nat
  group_id : Nat
  content : String
deriving DecidableEq, Repr

/-! ## escapeHtml and appendMessage (app.js:550, app.js:276) -/

/-- HTML text-node serialization of one character, as produced by
`div.textContent = text; div.innerHTML` in `escapeHtml`: the characters
`&`, `<`, `>` (and U+00A0) become entities, everything else is itself. -/
def escapeHtmlChar (c : Char) : String :=
  if c = '&' then "&amp;"
  else if c = '<' then "&lt;"
  else if c = '>' then "&gt;"
  else if c = ' ' then "&nbsp;"
  else String.singleton c

/-- Serialization of a text node: the concatenation of the per-character
escapes. -/
def escapeHtmlAux : List Char → String
  | [] => ""
  | c :: cs => escapeHtmlChar c ++ escapeHtmlAux cs

/-- Model of `escapeHtml(text)` (app.js:550): `if (!text) return ''` — JS
falsy covers null/undefined (`none`) and the empty string — otherwise the
text-node round-trip through a detached `div`. -/
def escapeHtml (text : Option String) : String :=
  match text with
  | none => ""
  | some s => if s = "" then "" else escapeHtmlAux s.data

/-- The content of the `msg-bubble` element produced by `appendMessage`
(app.js:283): the message content passed through `escapeHtml`. -/
def appendMessageBubble (msg : WsMsg) : String :=
  escapeHtml (some msg.content)

/-! ## sendMessage (app.js:290) -/

/-- The observable effect of one `sendMessage` invocation: messages
appended to the messages area (the optimistic echo), frames sent on the
socket, toasts shown, and the resulting value of the input field. -/
structure SendResult where
  appended : List WsMsg
  sent : List OutFrame
  toasts : List String
  inputAfter : String
deriving DecidableEq, Repr

/-- JavaScript `String.prototype.trim`: strips leading and trailing
whitespace. -/
def jsTrim (s : String) : String :=
  String.mk (((s.data.dropWhile Char.isWhitespace).reverse.dropWhile
    Char.isWhitespace).reverse)

/-- The `type` field of the outbound frame (app.js:312). -/
def sendFrameType (t : ChatType) : String :=
  match t with
  | ChatType.privateChat => "private_message"
  | ChatType.groupChat => "group_message"

/-- Model of `sendMessage` (app.js:290): returns early if there is no active
chat or the input trims to empty; with an open socket it renders the
optimistic `tempMsg`, sends the frame and clears the input; otherwise
it only shows the `'Connection lost'` toast. -/
def sendMessage (activeChat : Option ActiveChat) (inputValue : String)
    (socket : Option Socket) (user : User) (nowTs : String) : SendResult :=
  match activeChat with
  | none => ⟨[], [], [], inputValue⟩
  | some ac =>
    let content := jsTrim inputValue
    if content = "" then ⟨[], [], [], inputValue⟩
    else
      match socket with
      | some sock =>
        if sock.readyState = ReadyState.OPEN then
          let tempMsg : WsMsg := ⟨content, nowTs, user.id, user.nick_name⟩
          let frame : OutFrame := ⟨sendFrameType ac.type, ac.id, ac.id, content⟩
          ⟨[tempMsg], [frame], [], ""⟩
        else ⟨[], [], ["Connection lost"], inputValue⟩
      | none => ⟨[], [], ["Connection lost"], inputValue⟩

/-! ## handleWsMessage (app.js:363) -/

/-- Inbound WebSocket frames the client dispatches on (`data.type`):
`'message'` (broadcast), `'message_sent'` (ack to the sender, distinct
from the broadcast), `'error'`. -/
inductive WsData where
  | message (chat_type : ChatType) (chat_id : Nat) (group_id : Nat) (msg : WsMsg)
  | message_sent
  | error (msg : String)
deriving DecidableEq, Repr

/-- Model of `handleWsMessage` (app.js:363), as (messages appended to the
messages area, toasts shown). A `'message'` for the active chat is
appended unconditionally — there is no reconciliation against the
optimistic echo; the `'message_sent'` ack branch is an empty no-op
(app.js:379). -/
def handleWsMessage (activeChat : Option ActiveChat) (data : WsData) :
    List WsMsg × List String :=
  match data with
  | WsData.message ct cid gid m =>
    match activeChat with
    | some ac =>
      if (ct = ChatType.privateChat ∧ cid = ac.id) ∨
          (ct = ChatType.groupChat ∧ gid = ac.id) then
        ([m], [])
      else ([], ["New message from " ++ m.sender_name])
    | none => ([], ["New message from " ++ m.sender_name])
  | WsData.message_sent => ([], [])
  | WsData.error emsg => ([], [emsg])

/-! ## Logout and the reconnect policy (app.js:136, app.js:326, app.js:353) -/

/-- JS truthiness of `state.token` (`if (state.token)`): present and
non-empty. -/
def tokenTruthy (token : Option String) : Bool :=
  match token with
  | none => false
  | some t => t != ""

/-- The fields of `state` that logout and the reconnect loop touch. -/
structure ClientState where
  token : Option String
  user : Option User
  socket : Option Socket
deriving DecidableEq, Repr

/-- Firing a socket's close event against the current token: the
`onclose` handler (app.js:353) schedules one `setTimeout(connectWebSocket,
3000)` if and only if it is still attached and the token is set. The
result is the list of scheduled reconnect delays in milliseconds. -/
def closeEventReconnects (sock : Socket) (token : Option String) : List Nat :=
  if sock.oncloseAttached ∧ tokenTruthy token then [3000] else []

/-- Model of `handleLogout` (app.js:136): clears token and user, detaches the
socket's `onclose` handler (`state.socket.onclose = null`) and only then
closes it, and nulls the socket. Returns the new state paired with the
reconnects scheduled by the close. -/
def handleLogout (st : ClientState) : ClientState × List Nat :=
  let cleared : ClientState := ⟨none, none, none⟩
  match st.socket with
  | none => (cleared, [])
  | some sock =>
    let detached : Socket := ⟨sock.readyState, false⟩
    (cleared, closeEventReconnects detached none)

/-- A spontaneous transport close: the socket (if any) moves to
`CLOSED` and its `onclose` handler runs against the current token. -/
def transportClose (st : ClientState) : ClientState × List Nat :=
  match st.socket with
  | none => (st, [])
  | some sock =>
    (⟨st.token, st.user, some ⟨ReadyState.CLOSED, sock.oncloseAttached⟩⟩,
      closeEventReconnects sock st.token)

/-- The guard at the top of `connectWebSocket` (app.js:327):
`if (!state.token || state.token === 'null' || state.token === 'undefined')
return;` — `true` means the connection attempt proceeds. -/
def connectGuard (token : Option String) : Bool :=
  match token with
  | none => false
  | some t => t != "" && t != "null" && t != "undefined"

/-! ## openChat and the onopen handler (app.js:244, app.js:337) -/

/-- The join frame `openChat` sends (app.js:257): type selected by the
chat kind, with both `chat_id` and `group_id` set to the chat id. -/
def joinFrameFor (t : ChatType) (chatId : Nat) : OutFrame :=
  match t with
  | ChatType.privateChat => ⟨"join_private_chat", chatId, chatId, ""⟩
  | ChatType.groupChat => ⟨"join_group_chat", chatId, chatId, ""⟩

/-- The REST endpoint `openChat` reads history from (app.js:266). -/
def historyEndpoint (t : ChatType) (chatId : Nat) : String :=
  match t with
  | ChatType.privateChat => "/api/chats/private/" ++ toString chatId
  | ChatType.groupChat => "/api/chats/groups/" ++ toString chatId

/-- Externally visible actions of the client, in program order. -/
inductive ClientAction where
  | wsSend (frame : OutFrame)
  | historyRead (endpoint : String)
deriving DecidableEq, Repr

/-- The ordered actions of `openChat(chatId, type, _)` (app.js:244): the
join frame is sent first (only if the socket is open), then the history
endpoint is read. -/
def openChatActions (chatId : Nat) (t : ChatType) (socketOpen : Bool) :
    List ClientAction :=
  (if socketOpen then [ClientAction.wsSend (joinFrameFor t chatId)] else []) ++
    [ClientAction.historyRead (historyEndpoint t chatId)]

/-- Actions of the `onopen` handler (app.js:337): if a chat is active it re-runs
`openChat` for it (the socket that just opened is `OPEN`); otherwise it
performs no join/history actions. -/
def onopenActions (activeChat : Option ActiveChat) : List ClientAction :=
  match activeChat with
  | none => []
  | some ac => openChatActions ac.id ac.type true

/-! ## apiCall (app.js:510) -/

/-- The fields of a parsed JSON response body that `apiCall` inspects. -/
structure JsonBody where
  detail : Option String
  message : Option String
deriving DecidableEq, Repr

/-- JS `a || b` for an optional string `a`: `a` when present and truthy,
else `b`. -/
def jsOr (a : Option String) (b : String) : String :=
  match a with
  | some s => if s != "" then s else b
  | none => b

/-- The message of the `Error` thrown by `apiCall` on a non-ok response:
`data.detail || data.message || 'API Error'` (app.js:531). -/
def apiErrorMessage (data : JsonBody) : String :=
  jsOr data.detail (jsOr data.message "API Error")

/-- Outcome of `apiCall` (app.js:527): on an ok response the parsed body is
returned; otherwise an `Error` with `apiErrorMessage` is thrown. -/
def apiCall (resOk : Bool) (data : JsonBody) : Except String JsonBody :=
  if resOk then Except.ok data else Except.error (apiErrorMessage data)

/-- The `Authorization` header `apiCall` attaches (app.js:512):
present exactly when `state.token` is truthy. -/
def authHeaderOf (token : Option String) : Option String :=
  match token with
  | some t => if t != "" then some ("Bearer " ++ t) else none
  | none => none

/-! ## The message router and subscription table (spec-modelled)

The FastAPI server implementing the Message Router, Room Subscription
Table and abstract store (`server.py`) is not among the repository
sources; the definitions in this namespace are modelled from the spec
(§4.2, §4.4, §6, §7), with the message-size bound taken from the
`Settings` class documented in the repository's setup guide. -/

namespace Router

/-- Configured maximum content length, from the setup guide's `Settings`
class: `MAX_MESSAGE_LENGTH = 10000`. -/
def MAX_MESSAGE_LENGTH : Nat := 10000

/-- Error taxonomy of the routing core (spec §7). -/
inductive RouteError where
  | MessageTooLarge
  | NotAMember
  | StoreError
deriving DecidableEq, Repr

/-- Modelled from the spec: a persisted message — room id, sender
identity, content, room-scoped sequence number, timestamp (spec §3). -/
structure Message where
  roomId : Nat
  sender : Nat
  content : String
  seq : Nat
  timestamp : Nat
deriving DecidableEq, Repr

/-- Modelled from the spec: the server-side state the routing core reads
and writes — the per-room append-only store, the Room Directory's member
sets (read-only for the core), the subscription table of
(connection id, room id) pairs, and each connection's owning identity. -/
structure ServerState where
  store : Nat → List Message
  members : Nat → List Nat
  subs : List (Nat × Nat)
  owner : Nat → Nat

/-- Modelled from the spec: `route(senderIdentity, roomId, content)`
(spec §4.4). Validates the content length first (`MessageTooLarge`,
no persistence attempted), then re-reads room membership
(`NotAMember`), then appends to the store; the sequence number — the
room's message count plus one — is assigned only on store acceptance
(spec §7), so a failed append (`storeOk = false`, the simulated outage
of Scenario D) returns `StoreError` and leaves the state unchanged. -/
def route (st : ServerState) (sender roomId : Nat) (content : String)
    (ts : Nat) (storeOk : Bool) : Except RouteError Message × ServerState :=
  if content.length > MAX_MESSAGE_LENGTH then
    (Except.error RouteError.MessageTooLarge, st)
  else if sender ∈ st.members roomId then
    if storeOk then
      let msg : Message := ⟨roomId, sender, content, (st.store roomId).length + 1, ts⟩
      (Except.ok msg,
        { st with store := fun r => if r = roomId then st.store r ++ [msg] else st.store r })
    else (Except.error RouteError.StoreError, st)
  else (Except.error RouteError.NotAMember, st)

/-- Modelled from the spec: `join(connectionHandle, roomId)` (spec §4.2)
— fails with `NotAMember` when the connection's owning identity is not in
the room's member set (re-read at call time); on success registers the
subscription, idempotently. -/
def join (st : ServerState) (connId roomId : Nat) :
    Except RouteError Unit × ServerState :=
  if st.owner connId ∈ st.members roomId then
    if (connId, roomId) ∈ st.subs then (Except.ok (), st)
    else (Except.ok (), { st with subs := (connId, roomId) :: st.subs })
  else (Except.error RouteError.NotAMember, st)

/-- Modelled from the spec: `leave(connectionHandle, roomId)` (spec
§4.2) — idempotent removal, always succeeds. -/
def leave (st : ServerState) (connId roomId : Nat) :
    Except RouteError Unit × ServerState :=
  (Except.ok (),
    { st with subs := st.subs.filter (fun p => p ≠ (connId, roomId)) })

/-- One send request of a run: sender, content, timestamp, and whether
the store accepts the append (`false` simulates a store outage). -/
structure SendReq where
  sender : Nat
  content : String
  ts : Nat
  storeOk : Bool
deriving DecidableEq, Repr

/-- Runs a sequence of `route` calls on one room, in call order. -/
def runSends (st : ServerState) (roomId : Nat) : List SendReq → ServerState
  | [] => st
  | r :: rs => runSends (route st r.sender roomId r.content r.ts r.storeOk).2 roomId rs

/-- Whether a send is accepted: content within bounds, sender a member,
store append successful. -/
def acceptedSend (members : Nat → List Nat) (roomId : Nat) (r : SendReq) : Bool :=
  decide (r.content.length ≤ MAX_MESSAGE_LENGTH) &&
    decide (r.sender ∈ members roomId) && r.storeOk

/-- The stored message of an accepted send, given its sequence number. -/
def mkMsg (roomId seq : Nat) (r : SendReq) : Message :=
  ⟨roomId, r.sender, r.content, seq, r.ts⟩

/-- The log fragment a list of accepted sends appends, with consecutive
sequence numbers starting at `startSeq`. -/
def buildLog (roomId startSeq : Nat) : List SendReq → List Message
  | [] => []
  | r :: rs => mkMsg roomId startSeq r :: buildLog roomId (startSeq + 1) rs

/-- Gap-free room order: the sequence numbers of the room's log are
exactly `1, 2, …, length`. -/
def seqOk (log : List Message) : Prop :=
  log.map Message.seq = List.range' 1 log.length

/-- A small concrete server state: empty store, every room with members
1, 2, 3, no subscriptions, every connection owned by the identity of the
same number. -/
def sampleState : ServerState :=
  ⟨fun _ => [], fun _ => [1, 2, 3], [], fun c => c⟩

/-- A message body one character over the configured maximum. -/
def longContent : String :=
  String.mk (List.replicate 10001 'a')

end Router

end SecureChat

namespace SecureChat

namespace Router

/-! ## Router lemmas -/

theorem route_members (st : ServerState) (sender roomId : Nat)
    (content : String) (ts : Nat) (storeOk : Bool) :
    (route st sender roomId content ts storeOk).2.members = st.members := by
  unfold route
  split
  · rfl
  · split
    · split <;> rfl
    · rfl

theorem route_eq_of_accepted (st : ServerState) (roomId : Nat) (r : SendReq)
    (h : acceptedSend st.members roomId r = true) :
    route st r.sender roomId r.content r.ts r.storeOk =
      (Except.ok (mkMsg roomId ((st.store roomId).length + 1) r),
        { st with store := fun x => if x = roomId then
              st.store x ++ [mkMsg roomId ((st.store roomId).length + 1) r]
            else st.store x }) := by
  rw [acceptedSend] at h
  simp only [Bool.and_eq_true, decide_eq_true_eq] at h
  obtain ⟨⟨hlen, hmem⟩, hok⟩ := h
  simp [route, Nat.not_lt.mpr hlen, hmem, hok, mkMsg]

theorem route_snd_of_not_accepted (st : ServerState) (roomId : Nat) (r : SendReq)
    (h : acceptedSend st.members roomId r = false) :
    (route st r.sender roomId r.content r.ts r.storeOk).2 = st := by
  by_cases h1 : r.content.length > MAX_MESSAGE_LENGTH
  · simp [route, h1]
  · by_cases h2 : r.sender ∈ st.members roomId
    · have h3 : r.storeOk = false := by
        cases hb : r.storeOk
        · rfl
        · exfalso
          rw [acceptedSend] at h
          simp [Nat.not_lt.mp h1, h2, hb] at h
      simp [route, h1, h2, h3]
    · simp [route, h1, h2]

theorem runSends_store (roomId : Nat) (rs : List SendReq) :
    ∀ st : ServerState, (runSends st roomId rs).store roomId =
      st.store roomId ++
        buildLog roomId ((st.store roomId).length + 1)
          (rs.filter (acceptedSend st.members roomId)) := by
  induction rs with
  | nil => intro st; simp [runSends, buildLog]
  | cons r rs ih =>
    intro st
    by_cases h : acceptedSend st.members roomId r = true
    · rw [runSends, route_eq_of_accepted st roomId r h, ih]
      simp [List.filter_cons, h, buildLog, List.append_assoc]
    · have hf : acceptedSend st.members roomId r = false := by
        cases hb : acceptedSend st.members roomId r
        · rfl
        · exact absurd hb h
      rw [runSends, route_snd_of_not_accepted st roomId r hf, ih]
      simp [List.filter_cons, hf]

theorem map_seq_buildLog (roomId : Nat) (rs : List SendReq) :
    ∀ s : Nat, (buildLog roomId s rs).map Message.seq = List.range' s rs.length := by
  induction rs with
  | nil => intro s; simp [buildLog]
  | cons r rs ih =>
    intro s
    simp [buildLog, mkMsg, List.range'_succ, ih]

theorem length_buildLog (roomId : Nat) (rs : List SendReq) :
    ∀ s : Nat, (buildLog roomId s rs).length = rs.length := by
  induction rs with
  | nil => intro s; simp [buildLog]
  | cons r rs ih => intro s; simp [buildLog, ih]

/-! ## Claim theorems about the router -/

/-- C2: for every sequence of `route` calls on the same room, the
sequence numbers of the room's log form a strictly increasing, gap-free
sequence (`1, 2, …`), with no duplicates, and the accepted messages are
appended in call-acceptance order with consecutive sequence numbers —
rejected or store-failed calls append nothing. -/
theorem route_room_order (st : ServerState) (roomId : Nat) (rs : List SendReq)
    (h : seqOk (st.store roomId)) :
    seqOk ((runSends st roomId rs).store roomId) ∧
    List.Pairwise (· < ·) (((runSends st roomId rs).store roomId).map Message.seq) ∧
    (((runSends st roomId rs).store roomId).map Message.seq).Nodup ∧
    (runSends st roomId rs).store roomId =
      st.store roomId ++
        buildLog roomId ((st.store roomId).length + 1)
          (rs.filter (acceptedSend st.members roomId)) := by
  have hst := runSends_store roomId rs st
  rw [seqOk] at h
  have hmap : ((runSends st roomId rs).store roomId).map Message.seq =
      List.range' 1 ((runSends st roomId rs).store roomId).length := by
    rw [hst, List.map_append, h, map_seq_buildLog, List.length_append,
      length_buildLog,
      show (st.store roomId).length + 1 = 1 + (st.store roomId).length from
        Nat.add_comm _ _,
      List.range'_append_1]
    congr 1
    omega
  refine ⟨hmap, ?_, ?_, hst⟩
  · rw [hmap]
    exact List.pairwise_lt_range' _ _
  · rw [hmap]
    exact List.nodup_range' _ _

/-- Witness for C2: a concrete three-send run (two accepted, one store
failure) from the empty room satisfies the hypothesis and the
conclusion. -/
theorem route_room_order_witness :
    seqOk (sampleState.store 5) ∧
    (seqOk ((runSends sampleState 5 [⟨1, "hi", 10, true⟩, ⟨3, "yo", 11, true⟩, ⟨2, "ok", 12, false⟩]).store 5) ∧
      List.Pairwise (· < ·) (((runSends sampleState 5 [⟨1, "hi", 10, true⟩, ⟨3, "yo", 11, true⟩, ⟨2, "ok", 12, false⟩]).store 5).map Message.seq) ∧
      (((runSends sampleState 5 [⟨1, "hi", 10, true⟩, ⟨3, "yo", 11, true⟩, ⟨2, "ok", 12, false⟩]).store 5).map Message.seq).Nodup ∧
      (runSends sampleState 5 [⟨1, "hi", 10, true⟩, ⟨3, "yo", 11, true⟩, ⟨2, "ok", 12, false⟩]).store 5 =
        sampleState.store 5 ++
          buildLog 5 ((sampleState.store 5).length + 1)
            ([⟨1, "hi", 10, true⟩, ⟨3, "yo", 11, true⟩, ⟨2, "ok", 12, false⟩].filter
              (acceptedSend sampleState.members 5))) := by
  have h : seqOk (sampleState.store 5) := rfl
  exact ⟨h, route_room_order sampleState 5 _ h⟩

/-- C3: when the store append fails, `route` returns `StoreError` and
leaves the server state — hence every later read of the room —
unchanged; retrying the identical send against that unchanged state
succeeds and is assigned the room's next sequence number. -/
theorem route_store_failure (st : ServerState) (sender roomId : Nat)
    (content : String) (ts retryTs : Nat)
    (hmem : sender ∈ st.members roomId)
    (hlen : content.length ≤ MAX_MESSAGE_LENGTH) :
    route st sender roomId content ts false =
      (Except.error RouteError.StoreError, st) ∧
    (route st sender roomId content retryTs true).1 =
      Except.ok ⟨roomId, sender, content, (st.store roomId).length + 1, retryTs⟩ := by
  constructor
  · simp [route, Nat.not_lt.mpr hlen, hmem]
  · simp [route, Nat.not_lt.mpr hlen, hmem]

/-- Witness for C3: a concrete failed send that leaves the state
unchanged, whose retry is accepted with sequence number 1. -/
theorem route_store_failure_witness :
    (1 ∈ sampleState.members 5 ∧ ("hi" : String).length ≤ MAX_MESSAGE_LENGTH) ∧
    (route sampleState 1 5 "hi" 10 false =
        (Except.error RouteError.StoreError, sampleState) ∧
      (route sampleState 1 5 "hi" 11 true).1 =
        Except.ok ⟨5, 1, "hi", (sampleState.store 5).length + 1, 11⟩) := by
  refine ⟨⟨?_, ?_⟩, route_store_failure sampleState 1 5 "hi" 10 11 ?_ ?_⟩ <;> decide

/-- C4: a `route` call whose content exceeds `MAX_MESSAGE_LENGTH` fails
with `MessageTooLarge` and returns the server state unchanged: nothing
is persisted and the store, subscription and registry state are exactly
the input state. -/
theorem route_message_too_large (st : ServerState) (sender roomId : Nat)
    (content : String) (ts : Nat) (storeOk : Bool)
    (h : content.length > MAX_MESSAGE_LENGTH) :
    route st sender roomId content ts storeOk =
      (Except.error RouteError.MessageTooLarge, st) := by
  simp [route, h]

/-- Witness for C4: a 10001-character body is rejected with
`MessageTooLarge` and the state is unchanged. -/
theorem route_message_too_large_witness :
    longContent.length > MAX_MESSAGE_LENGTH ∧
    route sampleState 1 5 longContent 0 true =
      (Except.error RouteError.MessageTooLarge, sampleState) := by
  have hlen : longContent.length = 10001 := by
    rw [longContent]
    exact List.length_replicate 10001 'a'
  have h : longContent.length > MAX_MESSAGE_LENGTH := by
    rw [hlen, MAX_MESSAGE_LENGTH]
    omega
  exact ⟨h, route_message_too_large sampleState 1 5 longContent 0 true h⟩

/-- C7: `join` and `leave` are idempotent per (connection, room) pair:
a second identical `join` returns the same result and leaves the state
of the first (in particular it succeeds whenever the first succeeded),
and `leave` always succeeds, with a second identical `leave` a no-op. -/
theorem join_leave_idempotent (st : ServerState) (connId roomId : Nat) :
    (join (join st connId roomId).2 connId roomId).1 = (join st connId roomId).1 ∧
    (join (join st connId roomId).2 connId roomId).2 = (join st connId roomId).2 ∧
    ((join st connId roomId).1 = Except.ok () →
      (join (join st connId roomId).2 connId roomId).1 = Except.ok ()) ∧
    (leave st connId roomId).1 = Except.ok () ∧
    (leave (leave st connId roomId).2 connId roomId).1 = Except.ok () ∧
    (leave (leave st connId roomId).2 connId roomId).2 =
      (leave st connId roomId).2 := by
  by_cases hm : st.owner connId ∈ st.members roomId
  · by_cases hs : (connId, roomId) ∈ st.subs
    · simp [join, leave, hm, hs, List.filter_filter]
    · simp [join, leave, hm, hs, List.filter_filter]
  · simp [join, leave, hm, List.filter_filter]

/-- Witness for C7: on the sample state the first `join` succeeds, and
the theorem yields that the second does too. -/
theorem join_leave_idempotent_witness :
    (join sampleState 1 0).1 = Except.ok () ∧
    (join (join sampleState 1 0).2 1 0).1 = Except.ok () := by
  have h1 : (join sampleState 1 0).1 = Except.ok () := by
    simp [join, sampleState]
  exact ⟨h1, (join_leave_idempotent sampleState 1 0).2.2.1 h1⟩

end Router

/-! ## Client lemmas -/

theorem escapeHtmlChar_no_angle (c : Char) :
    ((escapeHtmlChar c).data.all fun d => !(d == '<') && !(d == '>')) = true := by
  unfold escapeHtmlChar
  split
  · decide
  · split
    · decide
    · split
      · decide
      · split
        · decide
        · next h1 h2 h3 h4 =>
          simp [String.singleton, h2, h3]

theorem escapeHtmlAux_no_angle (l : List Char) :
    ((escapeHtmlAux l).data.all fun d => !(d == '<') && !(d == '>')) = true := by
  induction l with
  | nil => rfl
  | cons c cs ih =>
    rw [escapeHtmlAux, String.data_append, List.all_append]
    rw [escapeHtmlChar_no_angle, ih]
    rfl

/-! ## Claim theorems about the client -/

/-- C8: `escapeHtml` never outputs a raw `<` or `>` character (each of
`&`, `<`, `>` becomes its HTML entity), returns the empty string on
null/undefined/empty input, and `appendMessage` passes the rendered
message content through `escapeHtml`, so message text cannot inject
HTML elements. -/
theorem escapeHtml_sanitizes :
    (∀ t : Option String,
      ((escapeHtml t).data.all fun d => !(d == '<') && !(d == '>')) = true) ∧
    escapeHtml none = "" ∧
    escapeHtml (some "") = "" ∧
    ∀ msg : WsMsg, appendMessageBubble msg = escapeHtml (some msg.content) := by
  refine ⟨?_, rfl, rfl, fun msg => rfl⟩
  intro t
  match t with
  | none => rfl
  | some s =>
    rw [escapeHtml]
    split
    · rfl
    · exact escapeHtmlAux_no_angle s.data

/-- C9 counterexample: with a present-but-empty `detail` field the
thrown message is taken from `message`, not from `detail`; and a stored
empty-string token does not produce an `Authorization` header. -/
theorem apiCall_detail_present_cex :
    apiCall false ⟨some "", some "boom"⟩ = Except.error "boom" ∧
    apiCall false ⟨some "", some "boom"⟩ ≠ Except.error "" ∧
    authHeaderOf (some "") = none := by
  refine ⟨rfl, ?_, rfl⟩
  intro h
  exact absurd (Except.error.inj h) (by decide)

/-- C9 (amended): `apiCall` returns the parsed body exactly on an ok
response and otherwise throws, with the error message taken from the
body's `detail` field when present and non-empty, else from its
`message` field when present and non-empty, else the literal
`'API Error'`; and the bearer header is attached exactly when the
stored token is non-empty. -/
theorem apiCall_behavior (resOk : Bool) (data : JsonBody) (token : Option String) :
    (resOk = true → apiCall resOk data = Except.ok data) ∧
    (∀ e : String, apiCall resOk data = Except.error e → resOk = false) ∧
    (resOk = false → ∀ d : String, data.detail = some d → d ≠ "" →
      apiCall resOk data = Except.error d) ∧
    (resOk = false → (data.detail = none ∨ data.detail = some "") →
      ∀ m : String, data.message = some m → m ≠ "" →
      apiCall resOk data = Except.error m) ∧
    (resOk = false → (data.detail = none ∨ data.detail = some "") →
      (data.message = none ∨ data.message = some "") →
      apiCall resOk data = Except.error "API Error") ∧
    (∀ t : String, token = some t → t ≠ "" →
      authHeaderOf token = some ("Bearer " ++ t)) ∧
    ((token = none ∨ token = some "") → authHeaderOf token = none) := by
  refine ⟨?_, ?_, ?_, ?_, ?_, ?_, ?_⟩
  · intro h
    simp [apiCall, h]
  · intro e h
    cases hk : resOk
    · rfl
    · rw [apiCall] at h
      simp [hk] at h
  · intro hk d hd hne
    simp [apiCall, hk, apiErrorMessage, jsOr, hd, hne]
  · intro hk hdet m hm hne
    rcases hdet with hd | hd <;>
      simp [apiCall, hk, apiErrorMessage, jsOr, hd, hm, hne]
  · intro hk hdet hmsg
    rcases hdet with hd | hd <;> rcases hmsg with hm | hm <;>
      simp [apiCall, hk, apiErrorMessage, jsOr, hd, hm]
  · intro t ht hne
    simp [authHeaderOf, ht, hne]
  · intro h
    rcases h with h | h <;> simp [authHeaderOf, h]

/-- Witness for C9 (amended): the outcomes and the header at concrete
inputs, each via the theorem. -/
theorem apiCall_behavior_witness :
    apiCall true ⟨none, none⟩ = Except.ok ⟨none, none⟩ ∧
    apiCall false ⟨some "nope", some "m"⟩ = Except.error "nope" ∧
    apiCall false ⟨none, some "m"⟩ = Except.error "m" ∧
    apiCall false ⟨some "", none⟩ = Except.error "API Error" ∧
    authHeaderOf (some "tok") = some ("Bearer " ++ "tok") ∧
    authHeaderOf none = none := by
  refine ⟨?_, ?_, ?_, ?_, ?_, ?_⟩
  · exact (apiCall_behavior true ⟨none, none⟩ none).1 rfl
  · exact (apiCall_behavior false ⟨some "nope", some "m"⟩ none).2.2.1 rfl "nope" rfl
      (by decide)
  · exact (apiCall_behavior false ⟨none, some "m"⟩ none).2.2.2.1 rfl (Or.inl rfl) "m"
      rfl (by decide)
  · exact (apiCall_behavior false ⟨some "", none⟩ none).2.2.2.2.1 rfl (Or.inr rfl)
      (Or.inl rfl)
  · exact (apiCall_behavior true ⟨none, none⟩ (some "tok")).2.2.2.2.2.1 "tok" rfl
      (by decide)
  · exact (apiCall_behavior true ⟨none, none⟩ none).2.2.2.2.2.2 (Or.inl rfl)

/-- C10: `sendMessage` is a no-op (nothing appended, nothing sent,
input unchanged) when no chat is active or the input trims to empty;
and when the socket is absent or not open it renders no optimistic
message and sends nothing — only the `'Connection lost'` toast. -/
theorem sendMessage_noop_cases (activeChat : Option ActiveChat)
    (inputValue : String) (socket : Option Socket) (user : User) (nowTs : String) :
    (activeChat = none →
      sendMessage activeChat inputValue socket user nowTs =
        ⟨[], [], [], inputValue⟩) ∧
    (jsTrim inputValue = "" →
      sendMessage activeChat inputValue socket user nowTs =
        ⟨[], [], [], inputValue⟩) ∧
    (activeChat ≠ none → jsTrim inputValue ≠ "" → socket = none →
      sendMessage activeChat inputValue socket user nowTs =
        ⟨[], [], ["Connection lost"], inputValue⟩) ∧
    (∀ sock : Socket, activeChat ≠ none → jsTrim inputValue ≠ "" →
      socket = some sock → sock.readyState ≠ ReadyState.OPEN →
      sendMessage activeChat inputValue socket user nowTs =
        ⟨[], [], ["Connection lost"], inputValue⟩) := by
  refine ⟨?_, ?_, ?_, ?_⟩
  · intro h
    simp [sendMessage, h]
  · intro h
    cases activeChat with
    | none => simp [sendMessage]
    | some ac => simp [sendMessage, h]
  · intro hac hin hs
    cases activeChat with
    | none => exact absurd rfl hac
    | some ac => simp [sendMessage, hin, hs]
  · intro sock hac hin hs hrs
    cases activeChat with
    | none => exact absurd rfl hac
    | some ac => simp [sendMessage, hin, hs, hrs]

/-- Witness for C10: the four no-op/error branches at concrete inputs,
each via the theorem. -/
theorem sendMessage_noop_cases_witness :
    sendMessage none "hi" none ⟨7, "alice"⟩ "t0" = ⟨[], [], [], "hi"⟩ ∧
    sendMessage (some ⟨1, ChatType.privateChat⟩) "  " none ⟨7, "alice"⟩ "t0" =
      ⟨[], [], [], "  "⟩ ∧
    sendMessage (some ⟨1, ChatType.privateChat⟩) "hi" none ⟨7, "alice"⟩ "t0" =
      ⟨[], [], ["Connection lost"], "hi"⟩ ∧
    sendMessage (some ⟨1, ChatType.privateChat⟩) "hi"
        (some ⟨ReadyState.CLOSED, true⟩) ⟨7, "alice"⟩ "t0" =
      ⟨[], [], ["Connection lost"], "hi"⟩ := by
  refine ⟨?_, ?_, ?_, ?_⟩
  · exact (sendMessage_noop_cases none "hi" none ⟨7, "alice"⟩ "t0").1 rfl
  · exact (sendMessage_noop_cases (some ⟨1, ChatType.privateChat⟩) "  " none
      ⟨7, "alice"⟩ "t0").2.1 (by decide)
  · exact (sendMessage_noop_cases (some ⟨1, ChatType.privateChat⟩) "hi" none
      ⟨7, "alice"⟩ "t0").2.2.1 (by decide) (by decide) rfl
  · exact (sendMessage_noop_cases (some ⟨1, ChatType.privateChat⟩) "hi"
      (some ⟨ReadyState.CLOSED, true⟩) ⟨7, "alice"⟩ "t0").2.2.2
      ⟨ReadyState.CLOSED, true⟩ (by decide) (by decide) rfl (by decide)

/-- C1 counterexample: a concrete send over an open socket renders the
optimistic echo, and the later broadcast of the sender's own message
for the active chat (`sender_id` equal to the user's id) is appended
again by `handleWsMessage` — the message ends up rendered twice, not
exactly once. -/
theorem optimistic_echo_duplicate_cex :
    (sendMessage (some ⟨1, ChatType.privateChat⟩) "hi"
      (some ⟨ReadyState.OPEN, true⟩) ⟨7, "alice"⟩ "t0").appended =
        [⟨"hi", "t0", 7, "alice"⟩] ∧
    (handleWsMessage (some ⟨1, ChatType.privateChat⟩)
      (WsData.message ChatType.privateChat 1 1 ⟨"hi", "t1", 7, "alice"⟩)).1 =
        [⟨"hi", "t1", 7, "alice"⟩] ∧
    ((sendMessage (some ⟨1, ChatType.privateChat⟩) "hi"
        (some ⟨ReadyState.OPEN, true⟩) ⟨7, "alice"⟩ "t0").appended ++
      (handleWsMessage (some ⟨1, ChatType.privateChat⟩)
        (WsData.message ChatType.privateChat 1 1 ⟨"hi", "t1", 7, "alice"⟩)).1).length
      = 2 := by
  refine ⟨?_, ?_, ?_⟩ <;> rfl

/-- C1 (amended): the client performs no reconciliation of the
optimistic echo: a send over an open socket appends the optimistic
message (which carries no local-reference id), the `'message_sent'`
acknowledgment — distinct from the broadcast — is handled as a no-op,
and a broadcast of the sender's own message for the active chat is
appended unconditionally, so the message is rendered twice. -/
theorem optimistic_echo_unreconciled (ac : ActiveChat) (input : String)
    (sock : Socket) (user : User) (nowTs : String) (bm : WsMsg)
    (ct : ChatType) (cid gid : Nat)
    (hin : jsTrim input ≠ "") (hopen : sock.readyState = ReadyState.OPEN)
    (htarget : (ct = ChatType.privateChat ∧ cid = ac.id) ∨
      (ct = ChatType.groupChat ∧ gid = ac.id)) :
    (sendMessage (some ac) input (some sock) user nowTs).appended =
      [⟨jsTrim input, nowTs, user.id, user.nick_name⟩] ∧
    (handleWsMessage (some ac) (WsData.message ct cid gid bm)).1 = [bm] ∧
    handleWsMessage (some ac) WsData.message_sent = ([], []) ∧
    ((sendMessage (some ac) input (some sock) user nowTs).appended ++
        (handleWsMessage (some ac) (WsData.message ct cid gid bm)).1).length = 2 := by
  have h1 : (sendMessage (some ac) input (some sock) user nowTs).appended =
      [⟨jsTrim input, nowTs, user.id, user.nick_name⟩] := by
    simp [sendMessage, hin, hopen]
  have h2 : (handleWsMessage (some ac) (WsData.message ct cid gid bm)).1 = [bm] := by
    simp only [handleWsMessage]
    rw [if_pos htarget]
  refine ⟨h1, h2, rfl, ?_⟩
  rw [h1, h2]
  rfl

/-- Witness for C1 (amended): the duplicate rendering at a concrete
group-chat input, via the theorem. -/
theorem optimistic_echo_unreconciled_witness :
    (sendMessage (some ⟨9, ChatType.groupChat⟩) " yo "
      (some ⟨ReadyState.OPEN, false⟩) ⟨3, "bob"⟩ "s0").appended =
        [⟨jsTrim " yo ", "s0", 3, "bob"⟩] ∧
    (handleWsMessage (some ⟨9, ChatType.groupChat⟩)
      (WsData.message ChatType.groupChat 4 9 ⟨"yo", "s1", 3, "bob"⟩)).1 =
        [⟨"yo", "s1", 3, "bob"⟩] ∧
    handleWsMessage (some ⟨9, ChatType.groupChat⟩) WsData.message_sent = ([], []) ∧
    ((sendMessage (some ⟨9, ChatType.groupChat⟩) " yo "
        (some ⟨ReadyState.OPEN, false⟩) ⟨3, "bob"⟩ "s0").appended ++
      (handleWsMessage (some ⟨9, ChatType.groupChat⟩)
        (WsData.message ChatType.groupChat 4 9 ⟨"yo", "s1", 3, "bob"⟩)).1).length
      = 2 :=
  optimistic_echo_unreconciled ⟨9, ChatType.groupChat⟩ " yo "
    ⟨ReadyState.OPEN, false⟩ ⟨3, "bob"⟩ "s0" ⟨"yo", "s1", 3, "bob"⟩
    ChatType.groupChat 4 9 (by decide) rfl (Or.inr ⟨rfl, rfl⟩)

/-- C5: `handleLogout` clears token, user and socket, schedules no
reconnect (the `onclose` handler is detached before closing), and after
it neither a transport close nor the `connectWebSocket` guard can start
a reconnection; by contrast a transport close with the token still set
and the handler attached schedules exactly one reconnect after the
fixed 3000 ms delay. -/
theorem logout_fixed_delay_reconnect (st : ClientState) :
    (handleLogout st).1 = ⟨none, none, none⟩ ∧
    (handleLogout st).2 = [] ∧
    (transportClose (handleLogout st).1).2 = [] ∧
    connectGuard (handleLogout st).1.token = false ∧
    (∀ sock : Socket, st.socket = some sock → sock.oncloseAttached = true →
      tokenTruthy st.token = true → (transportClose st).2 = [3000]) := by
  refine ⟨?_, ?_, ?_, ?_, ?_⟩
  · cases hs : st.socket <;> simp [handleLogout, hs]
  · cases hs : st.socket <;>
      simp [handleLogout, hs, closeEventReconnects, tokenTruthy]
  · cases hs : st.socket <;> simp [handleLogout, hs, transportClose]
  · cases hs : st.socket <;> simp [handleLogout, hs, connectGuard]
  · intro sock hs ha ht
    simp [transportClose, hs, closeEventReconnects, ha, ht]

/-- Witness for C5: a concrete logged-in state whose transport close
schedules exactly one 3-second reconnect, via the theorem. -/
theorem logout_fixed_delay_reconnect_witness :
    (transportClose ⟨some "tok", some ⟨7, "alice"⟩,
      some ⟨ReadyState.OPEN, true⟩⟩).2 = [3000] :=
  (logout_fixed_delay_reconnect
      ⟨some "tok", some ⟨7, "alice"⟩, some ⟨ReadyState.OPEN, true⟩⟩).2.2.2.2
    ⟨ReadyState.OPEN, true⟩ rfl rfl rfl

/-- C6: when the socket (re)opens with a chat active, the client's
`onopen` handler first re-sends the join frame for the active room and
then reads the room's history endpoint — both before any subsequent
live event is processed; with no active chat it does neither. -/
theorem reconnect_rejoins_and_reads (ac : ActiveChat) :
    onopenActions (some ac) =
      [ClientAction.wsSend (joinFrameFor ac.type ac.id),
        ClientAction.historyRead (historyEndpoint ac.type ac.id)] ∧
    onopenActions none = [] :=
  ⟨rfl, rfl⟩

end SecureChat
